import Mathlib

/-!
Verification of the Hybrid RAG Telecom Assistant (`app.py`) against its
natural-language specification.

The program is a single Streamlit script.  We embed it shallowly:

* every call to an external service (Gemini model listing / generation,
  FAISS similarity search, Tavily web search, PDF loading, index
  construction) is a field of an environment record, returning
  `Except String _` — `.error e` models the Python call raising an
  exception whose string form is `e`, `.ok v` a normal return;
* `generate_answer` is transcribed line by line from `app.py` (lines
  104–162).  Its result type distinguishes an uncaught exception
  (`Except.error`) from a normally returned string (`Except.ok`); a small
  trace additionally records the retrieved documents, the constructed
  grounded prompt and the number of web-search invocations, so that
  "invoked exactly once" style properties are statable;
* the Streamlit session state (`st.session_state.messages`) is an
  `Option (List Message)`: `none` models the key being absent,
  `some h` the key holding history `h`;
* `@st.cache_resource` memoisation is modelled by an explicit cache cell
  threaded through repeated calls.
-/

/-- A retrieved document chunk, as returned by `vector_store.similarity_search`
(`doc.page_content` is the only field the program reads). -/
structure Doc where
  page_content : String
deriving Repr, DecidableEq

/-- One chat turn, mirroring the dicts stored in `st.session_state.messages`
(`{"role": ..., "content": ...}`). -/
structure Message where
  role : String
  content : String
deriving Repr, DecidableEq

/-- Metadata of one Gemini model as yielded by `genai.list_models()`:
its name and its `supported_generation_methods` list. -/
structure ModelInfo where
  name : String
  supported_generation_methods : List String
deriving Repr, DecidableEq

/-- Python `sub in s` at starting position scan: does `sub` occur as a prefix
of some suffix of `l`? -/
def containsFrom (sub : List Char) : List Char → Bool
  | [] => sub.isPrefixOf []
  | c :: cs => sub.isPrefixOf (c :: cs) || containsFrom sub cs

/-- Python's substring test `sub in s`. -/
def strContains (s sub : String) : Bool := containsFrom sub.data s.data

/-- Python's `s.endswith(suffix)`. -/
def strEndsWith (s suffix : String) : Bool := suffix.data.isSuffixOf s.data

/-- Python truthiness of an `os.getenv` result: `None` and the empty string
are falsy (`if not google_api_key or not tavily_api_key`). -/
def truthy : Option String → Bool
  | none => false
  | some s => !(s == "")

/-- The external services the script calls, as oracles.
`generate m p` bundles `genai.GenerativeModel(m)`, `.generate_content(p)` and
`.text` (any of which may raise); `tavily q` bundles
`TavilySearchResults(max_results=3)` and `.invoke(q)`, its `.ok` value being
the stringified `web_results` interpolated into the web prompt. -/
structure Env where
  list_models : Except String (List ModelInfo)
  similarity : String → Nat → Except String (List Doc)
  generate : String → String → Except String String
  tavily : String → Except String String

/-- Transcription of `get_working_model_name` (`app.py` lines 93–102): scan
`genai.list_models()` for the first model supporting `generateContent` whose
name contains `flash` or `pro`; default `models/gemini-1.5-flash` when none
matches, `models/gemini-pro` when listing raises. -/
def get_working_model_name (env : Env) : String :=
  match env.list_models with
  | .error _ => "models/gemini-pro"
  | .ok ms =>
    match ms.find? (fun m =>
        m.supported_generation_methods.contains "generateContent"
          && (strContains m.name "flash" || strContains m.name "pro")) with
    | some m => m.name
    | none => "models/gemini-1.5-flash"

/-- The text of the grounded prompt before the interpolated `context_text`
(`app.py` lines 110–122). -/
def pdf_prompt_pre : String :=
  "\n    You are a polite and helpful Customer Support Agent for a Sri Lankan Telecommunications Company.\n    \n    Context from Guides:\n    "

/-- The text of the grounded prompt between `context_text` and `query`. -/
def pdf_prompt_mid : String := "\n    \n    Customer Question: "

/-- The text of the grounded prompt after the interpolated `query`. -/
def pdf_prompt_post : String :=
  "\n    \n    Instructions:\n    1. Be friendly and concise.\n    2. If the user asks for a price/code, give exact details from the text.\n    3. If the answer is NOT in the context, reply exactly \"NOT_FOUND\".\n    "

/-- The grounded prompt built at `app.py` lines 110–122 (f-string with
`context_text` and `query` interpolated). -/
def pdf_prompt (context_text query : String) : String :=
  pdf_prompt_pre ++ context_text ++ pdf_prompt_mid ++ query ++ pdf_prompt_post

/-- The web-fallback prompt built at `app.py` lines 144–151. -/
def web_prompt (web_results query : String) : String :=
  "\n            You are a Telecom Support Agent. The internal document didn\x27t have the answer, so use these web search results.\n            \n            Web Results: "
    ++ web_results
    ++ "\n            Question: "
    ++ query
    ++ "\n            \n            Answer helpfully and summarize the best options.\n            "

/-- The fixed apology returned when the web-fallback path fails
(`app.py` line 159). -/
def apology : String := "I couldn\x27t find that information in our guides or online."

/-- The primary attempt and single compatibility retry of `app.py` lines
124–134.  Result `.ok (m, answer)` records which model produced the answer
(the Python variable `model` is left bound to it and reused by the fallback
path); `.error e` carries the ORIGINAL primary failure `e`, which the caller
turns into the `System Error` string.  The second component counts how many
`generate_content` invocations were made on this prompt. -/
def generate_with_retry (env : Env) (model_name prompt : String) :
    Except String (String × String) × Nat :=
  match env.generate model_name prompt with
  | .ok answer => (.ok (model_name, answer), 1)
  | .error e =>
    match env.generate "models/gemini-1.0-pro" prompt with
    | .ok answer => (.ok ("models/gemini-1.0-pro", answer), 2)
    | .error _ => (.error e, 2)

/-- The web-fallback block of `app.py` lines 140–159: one Tavily search and
one further generation, the whole block wrapped in a single `try` whose
handler returns the fixed apology. -/
def web_fallback (env : Env) (model_used query : String) : String :=
  match env.tavily query with
  | .error _ => apology
  | .ok web_results =>
    match env.generate model_used (web_prompt web_results query) with
    | .error _ => apology
    | .ok final_answer => final_answer

/-- Execution trace of one `generate_answer` call.  `result` is `.ok s` when
the function returns the string `s`, `.error e` when an exception escapes it;
`docs` and `prompt` record the retrieved chunks and grounded prompt (empty
when retrieval raised before they were built); `tavily_calls` counts
invocations of the web search. -/
structure GAResult where
  result : Except String String
  docs : List Doc
  prompt : String
  tavily_calls : Nat
deriving Repr

/-- Transcription of `generate_answer` (`app.py` lines 104–162).
`chat_history` is the third Python parameter; the body never reads it.
The `similarity_search` call (line 107) sits OUTSIDE every `try` block, so
its failure becomes `.error` (an exception escaping the function); every
other failure is converted to a returned string. -/
def generate_answer (env : Env) (query : String) (chat_history : List Message) :
    GAResult :=
  let model_name := get_working_model_name env
  match env.similarity query 3 with
  | .error e => { result := .error e, docs := [], prompt := "", tavily_calls := 0 }
  | .ok docs =>
    let context_text := String.intercalate "\n\n" (docs.map Doc.page_content)
    let prompt := pdf_prompt context_text query
    match (generate_with_retry env model_name prompt).1 with
    | .error e =>
        { result := .ok ("System Error: " ++ e), docs := docs, prompt := prompt,
          tavily_calls := 0 }
    | .ok (model_used, answer) =>
      if strContains answer "NOT_FOUND" then
        { result := .ok (web_fallback env model_used query), docs := docs,
          prompt := prompt, tavily_calls := 1 }
      else
        { result := .ok answer, docs := docs, prompt := prompt, tavily_calls := 0 }

/-- The greeting seeded into a fresh chat history (`app.py` lines 176–179). -/
def greeting : Message :=
  { role := "ai",
    content := "Hello! 👋 I can help you find the best data packages or fix router issues. What do you need today?" }

/-- The `Clear Conversation` button handler (`app.py` lines 54–56): it
assigns `st.session_state.messages = []` (the key remains present) and
reruns the script. -/
def clear_conversation (_s : Option (List Message)) : Option (List Message) :=
  some []

/-- The chat-history initialisation guard (`app.py` lines 176–179): the
greeting is seeded only when the `messages` key is ABSENT from
`st.session_state`. -/
def init_messages : Option (List Message) → Option (List Message)
  | none => some [greeting]
  | some h => some h

/-- The avatar chosen per role in the render loop (`app.py` line 184). -/
def avatar_for (role : String) : String := if role == "ai" then "📡" else "👤"

/-- The history render loop (`app.py` lines 182–186): each message is shown,
in list order, as a `(role, avatar, content)` chat bubble. -/
def render_history (h : List Message) : List (String × String × String) :=
  h.map (fun m => (m.role, avatar_for m.role, m.content))

/-- One user submission (`app.py` lines 189–199): append the human message,
call `generate_answer` on the updated history, then append the ai message.
When `generate_answer` raises (`.error`), the script run aborts with only the
human message appended; the second component reports that exception. -/
def handle_submission (env : Env) (history : List Message) (user_input : String) :
    List Message × Option String :=
  let h1 := history ++ [{ role := "human", content := user_input }]
  match (generate_answer env user_input h1).result with
  | .error e => (h1, some e)
  | .ok response_text => (h1 ++ [{ role := "ai", content := response_text }], none)

/-- The startup-time facts and external calls `get_vector_store` and the key
check depend on: the two `os.getenv` results, `os.path.exists("data")`,
`os.listdir("data")`, the per-file `PyPDFLoader(...).load()` (may raise), and
the splitter + embeddings + `FAISS.from_documents` pipeline (may raise),
abstracted as `build_index` producing the vector store value. -/
structure StartupEnv where
  google_api_key : Option String
  tavily_api_key : Option String
  folder_exists : Bool
  files : List String
  load_pdf : String → Except String (List Doc)
  build_index : List Doc → Except String (List Doc)

/-- The `documents` accumulation loop of `app.py` lines 70–76: load each
`.pdf` file in `os.listdir` order and concatenate the pages; a raising loader
aborts the whole `try` block. -/
def load_all (load_pdf : String → Except String (List Doc)) :
    List String → Except String (List Doc)
  | [] => .ok []
  | f :: fs =>
    match load_pdf f with
    | .error e => .error e
    | .ok ds =>
      match load_all load_pdf fs with
      | .error e => .error e
      | .ok rest => .ok (ds ++ rest)

/-- Transcription of `get_vector_store` (`app.py` lines 62–91), minus the
`@st.cache_resource` memoisation which is modelled separately.  `.error msg`
models the `st.error(msg); return None` paths, `.ok vs` a built store. -/
def get_vector_store (env : StartupEnv) : Except String (List Doc) :=
  if !env.folder_exists then
    .error "Folder \x27data\x27 not found! Please create a \x27data\x27 folder."
  else
    match load_all env.load_pdf (env.files.filter (fun f => strEndsWith f ".pdf")) with
    | .error e => .error ("Error loading PDFs: " ++ e)
    | .ok documents =>
      if documents.isEmpty then
        .error "No PDF files found in \x27data\x27 folder!"
      else
        match env.build_index documents with
        | .error e => .error ("Error loading PDFs: " ++ e)
        | .ok vs => .ok vs

/-- What the script does before (and instead of) the chat interface. -/
inductive StartupOutcome where
  | halted (msg : String)
  | noChat (msg : String)
  | chat
deriving Repr, DecidableEq

/-- The startup path of the script: the key check at `app.py` lines 15–20
(`st.error` + `st.stop()` halts the run), then `vector_store =
get_vector_store()` and the `if vector_store:` guard at line 174 — the chat
history, render loop and input box exist only inside that guard. -/
def startup (env : StartupEnv) : StartupOutcome :=
  if !truthy env.google_api_key || !truthy env.tavily_api_key then
    .halted "⚠️ Error: Keys not found. Please check your .env file."
  else
    match get_vector_store env with
    | .error msg => .noChat msg
    | .ok _ => .chat

/-- `@st.cache_resource` memoisation, run for `n` calls against a cache cell:
a hit returns the cached value; a miss runs `compute` once and stores the
result.  Returns the value each call observed and how many times `compute`
ran. -/
def cached_calls (compute : Unit → α) : Nat → Option α → List α × Nat
  | 0, _ => ([], 0)
  | n + 1, some v =>
    let r := cached_calls compute n (some v)
    (v :: r.1, r.2)
  | n + 1, none =>
    let v := compute ()
    let r := cached_calls compute n (some v)
    (v :: r.1, r.2 + 1)

/-- One chunk held by the FAISS index: its embedding vector and its text. -/
structure IndexedChunk where
  vec : List Int
  text : String
deriving Repr, DecidableEq

/-- Squared L2 distance between two embedding vectors (the metric of a flat
FAISS index built by `FAISS.from_documents`). -/
def sq_dist (u v : List Int) : Int :=
  ((u.zip v).map (fun p => (p.1 - p.2) ^ 2)).sum

/-- Model of `vector_store.similarity_search(query, k)` over a flat index:
score every chunk by distance to the embedded query, sort by non-decreasing
distance, keep the first `k`.  Returns the `(distance, text)` pairs. -/
def faiss_search (entries : List IndexedChunk) (qv : List Int) (k : Nat) :
    List (Int × String) :=
  ((entries.map (fun c => (sq_dist qv c.vec, c.text))).mergeSort
      (fun a b => a.1 ≤ b.1)).take k

/-- The environment of a run whose vector store is the modelled FAISS index:
`similarity_search` embeds the query and searches, never raising. -/
def env_of_store (lm : Except String (List ModelInfo))
    (entries : List IndexedChunk) (embed : String → List Int)
    (gen : String → String → Except String String)
    (tav : String → Except String String) : Env :=
  { list_models := lm,
    similarity := fun q k =>
      .ok ((faiss_search entries (embed q) k).map (fun p => { page_content := p.2 })),
    generate := gen,
    tavily := tav }

/-! ### Helper lemmas -/

/-- Whatever the outcome of the primary/retry generation and of the sentinel
test, `generate_answer` records the retrieved chunks unchanged and builds the
grounded prompt from exactly those chunks. -/
theorem generate_answer_docs_prompt (env : Env) (query : String)
    (history : List Message) (docs : List Doc)
    (hsim : env.similarity query 3 = .ok docs) :
    (generate_answer env query history).docs = docs
    ∧ (generate_answer env query history).prompt
      = pdf_prompt (String.intercalate "\n\n" (docs.map Doc.page_content)) query := by
  rcases hg : (generate_with_retry env (get_working_model_name env)
      (pdf_prompt (String.intercalate "\n\n" (docs.map Doc.page_content)) query)).1
    with e | p
  · constructor <;> simp [generate_answer, hsim, hg]
  · obtain ⟨m, a⟩ := p
    by_cases hNF : strContains a "NOT_FOUND" = true <;>
      constructor <;> simp [generate_answer, hsim, hg, hNF]

/-- The grounded prompt embeds the supplied context verbatim. -/
theorem pdf_prompt_contains_context (context_text query : String) :
    ∃ l r, (pdf_prompt context_text query).data = l ++ context_text.data ++ r :=
  ⟨pdf_prompt_pre.data,
    pdf_prompt_mid.data ++ query.data ++ pdf_prompt_post.data,
    by simp [pdf_prompt, List.append_assoc]⟩

/-- A cache-resource call against a populated cache never recomputes: all `n`
calls observe the cached value. -/
theorem cached_calls_hit (compute : Unit → α) (v : α) :
    ∀ n, cached_calls compute n (some v) = (List.replicate n v, 0) := by
  intro n
  induction n with
  | zero => rfl
  | succ m ih => simp [cached_calls, ih, List.replicate_succ]

/-- The modelled FAISS search returns its hits sorted by non-decreasing
distance. -/
theorem faiss_search_sorted (entries : List IndexedChunk) (qv : List Int)
    (k : Nat) :
    (faiss_search entries qv k).Pairwise (fun a b => a.1 ≤ b.1) := by
  have hs :
      ((entries.map (fun c => (sq_dist qv c.vec, c.text))).mergeSort
          (fun a b => decide (a.1 ≤ b.1))).Pairwise
        (fun a b : Int × String => decide (a.1 ≤ b.1) = true) :=
    List.sorted_mergeSort
      (fun a b c hab hbc => by
        simp only [decide_eq_true_eq] at *
        exact le_trans hab hbc)
      (fun a b => by
        rcases le_total a.1 b.1 with h | h <;> simp [h])
      (entries.map (fun c => (sq_dist qv c.vec, c.text)))
  have ht := hs.sublist (List.take_sublist k _)
  exact ht.imp (fun h => of_decide_eq_true h)

/-! ### Example runs used by witnesses and counterexamples -/

/-- A run whose retrieval yields one chunk, whose generations all return the
bare sentinel, and whose web search succeeds. -/
def env_sentinel : Env :=
  { list_models := .error "listing unavailable",
    similarity := fun _ _ => .ok [{ page_content := "ctx" }],
    generate := fun _ _ => .ok "NOT_FOUND",
    tavily := fun _ => .ok "web results" }

/-- A run whose `similarity_search` raises. -/
def env_retrieval_raises : Env :=
  { list_models := .error "listing unavailable",
    similarity := fun _ _ => .error "similarity_search failed",
    generate := fun _ _ => .ok "an answer",
    tavily := fun _ => .ok "web results" }

/-- A run where the primary and the secondary model invocation both fail. -/
def env_both_models_fail : Env :=
  { list_models := .error "listing unavailable",
    similarity := fun _ _ => .ok [{ page_content := "ctx" }],
    generate := fun m _ =>
      if m == "models/gemini-1.0-pro" then .error "secondary down"
      else .error "primary down",
    tavily := fun _ => .ok "web results" }

/-- A run that reaches the web fallback and whose Tavily search raises. -/
def env_search_fails : Env :=
  { list_models := .error "listing unavailable",
    similarity := fun _ _ => .ok [],
    generate := fun _ _ => .ok "NOT_FOUND",
    tavily := fun _ => .error "tavily 500" }

/-! ### Claims -/

/-- Claim C1: for every query, if the first answer contains the substring
`NOT_FOUND`, the web fallback runs exactly once (`tavily_calls = 1`) and its
result — the web-grounded answer when search and generation succeed, the
fixed apology otherwise — is what the function returns, never the
sentinel-containing answer expression; when the answer does not contain the
substring it is returned unchanged and the fallback does not run
(`tavily_calls = 0`). -/
theorem C1_sentinel_triggers_single_fallback (env : Env) (query : String)
    (history : List Message) (docs : List Doc) (model_used answer : String)
    (hsim : env.similarity query 3 = .ok docs)
    (hgen : (generate_with_retry env (get_working_model_name env)
        (pdf_prompt (String.intercalate "\n\n" (docs.map Doc.page_content)) query)).1
      = .ok (model_used, answer)) :
    (strContains answer "NOT_FOUND" = true →
      (generate_answer env query history).result
          = .ok (web_fallback env model_used query)
        ∧ (generate_answer env query history).tavily_calls = 1
        ∧ (∀ w fin, env.tavily query = .ok w →
            env.generate model_used (web_prompt w query) = .ok fin →
            web_fallback env model_used query = fin)
        ∧ (∀ e, env.tavily query = .error e →
            web_fallback env model_used query = apology)
        ∧ (∀ w e, env.tavily query = .ok w →
            env.generate model_used (web_prompt w query) = .error e →
            web_fallback env model_used query = apology))
    ∧ (strContains answer "NOT_FOUND" = false →
      (generate_answer env query history).result = .ok answer
        ∧ (generate_answer env query history).tavily_calls = 0) := by
  constructor
  · intro hNF
    refine ⟨?_, ?_, ?_, ?_, ?_⟩
    · simp [generate_answer, hsim, hgen, hNF]
    · simp [generate_answer, hsim, hgen, hNF]
    · intro w fin hw hg
      simp [web_fallback, hw, hg]
    · intro e he
      simp [web_fallback, he]
    · intro w e hw hg
      simp [web_fallback, hw, hg]
  · intro hNF
    constructor
    · simp [generate_answer, hsim, hgen, hNF]
    · simp [generate_answer, hsim, hgen, hNF]

/-- Claim C1 witness: a concrete sentinel-producing run takes the fallback
path exactly once and returns its result. -/
theorem C1_witness :
    (generate_answer env_sentinel "q" []).result
        = .ok (web_fallback env_sentinel "models/gemini-pro" "q")
      ∧ (generate_answer env_sentinel "q" []).tavily_calls = 1 := by
  have h := C1_sentinel_triggers_single_fallback env_sentinel "q" []
    [{ page_content := "ctx" }] "models/gemini-pro" "NOT_FOUND" rfl rfl
  exact ⟨(h.1 (by decide)).1, (h.1 (by decide)).2.1⟩

/-- A session holding the greeting plus one completed exchange. -/
def session_with_turns : Option (List Message) :=
  some [greeting, { role := "human", content := "hi" },
        { role := "ai", content := "an answer" }]

/-- Claim C2 counterexample: clearing a session with prior turns leaves the
`messages` key present and EMPTY — the greeting-seeding guard
(`if "messages" not in st.session_state`) then does not fire on the rerun, so
the rendered history has length 0, not 1. -/
theorem C2_counterexample :
    init_messages (clear_conversation session_with_turns) = some []
    ∧ (render_history ([] : List Message)).length ≠ 1 := by
  exact ⟨rfl, by decide⟩

/-- Claim C2 (amended): the clear action resets the history to the EMPTY
list from any session state, and because the `messages` key remains present
the greeting is not re-seeded on the following rerun; the single ai-authored
greeting is seeded only on first initialisation, when the key is absent. -/
theorem C2_clear_resets_to_empty (s : Option (List Message)) :
    init_messages (clear_conversation s) = some []
    ∧ init_messages none = some [greeting]
    ∧ greeting.role = "ai"
    ∧ (render_history [greeting]).length = 1 :=
  ⟨rfl, rfl, rfl, rfl⟩

/-- Claim C3 counterexample: a failure of `similarity_search`, which sits
outside every `try` block, escapes `generate_answer` as an exception instead
of becoming a user-visible string. -/
theorem C3_counterexample :
    (generate_answer env_retrieval_raises "What is the price?" []).result
      = .error "similarity_search failed" := rfl

/-- Claim C3 (amended): once retrieval has succeeded, every later failure
(model invocation, web search) is caught inside `generate_answer` and turned
into a returned string; only a retrieval failure escapes as an exception. -/
theorem C3_nonretrieval_failures_converted (env : Env) (query : String)
    (history : List Message) (docs : List Doc)
    (hsim : env.similarity query 3 = .ok docs) :
    ∃ s, (generate_answer env query history).result = .ok s := by
  rcases hg : (generate_with_retry env (get_working_model_name env)
      (pdf_prompt (String.intercalate "\n\n" (docs.map Doc.page_content)) query)).1
    with e | p
  · exact ⟨"System Error: " ++ e, by simp [generate_answer, hsim, hg]⟩
  · obtain ⟨m, a⟩ := p
    by_cases hNF : strContains a "NOT_FOUND" = true
    · exact ⟨web_fallback env m query, by simp [generate_answer, hsim, hg, hNF]⟩
    · exact ⟨a, by simp [generate_answer, hsim, hg, hNF]⟩

/-- Claim C3 witness: a concrete run with successful retrieval returns a
string whatever the services do afterwards. -/
theorem C3_witness :
    ∃ s, (generate_answer env_sentinel "q" []).result = .ok s :=
  C3_nonretrieval_failures_converted env_sentinel "q" []
    [{ page_content := "ctx" }] rfl

/-- Claim C4: when the primary model invocation fails, exactly one retry is
made (two `generate_content` invocations in total), against the fixed older
identifier `models/gemini-1.0-pro` and with the SAME prompt; if the retry
succeeds its answer is used, and if it also fails `generate_answer` returns
normally with a `System Error` string embedding the ORIGINAL failure's
detail. -/
theorem C4_single_retry_then_system_error (env : Env) (query : String)
    (history : List Message) (docs : List Doc) (prompt e : String)
    (hsim : env.similarity query 3 = .ok docs)
    (hprompt : prompt
      = pdf_prompt (String.intercalate "\n\n" (docs.map Doc.page_content)) query)
    (hfail : env.generate (get_working_model_name env) prompt = .error e) :
    (generate_with_retry env (get_working_model_name env) prompt).2 = 2
    ∧ (∀ a, env.generate "models/gemini-1.0-pro" prompt = .ok a →
        (generate_with_retry env (get_working_model_name env) prompt).1
          = .ok ("models/gemini-1.0-pro", a))
    ∧ (∀ e2, env.generate "models/gemini-1.0-pro" prompt = .error e2 →
        (generate_answer env query history).result
          = .ok ("System Error: " ++ e)) := by
  subst hprompt
  refine ⟨?_, ?_, ?_⟩
  · rcases h2 : env.generate "models/gemini-1.0-pro"
        (pdf_prompt (String.intercalate "\n\n" (docs.map Doc.page_content)) query)
      with e2 | a <;> simp [generate_with_retry, hfail, h2]
  · intro a h2
    simp [generate_with_retry, hfail, h2]
  · intro e2 h2
    simp [generate_answer, hsim, generate_with_retry, hfail, h2]

/-- Claim C4 witness: with both invocations failing on a concrete run, the
function returns the `System Error` string carrying the primary failure. -/
theorem C4_witness :
    (generate_answer env_both_models_fail "q" []).result
      = .ok ("System Error: " ++ "primary down") := by
  have h := C4_single_retry_then_system_error env_both_models_fail "q" []
    [{ page_content := "ctx" }] _ "primary down" rfl rfl rfl
  exact h.2.2 "secondary down" rfl

/-- Claim C5: on the web-fallback path, a failure of the web search or of the
subsequent model invocation yields exactly the fixed apology string — a
constant, so the original error detail is discarded — and the web search is
not retried (`tavily_calls = 1`). -/
theorem C5_fallback_failure_yields_apology (env : Env) (query : String)
    (history : List Message) (docs : List Doc) (model_used answer : String)
    (hsim : env.similarity query 3 = .ok docs)
    (hgen : (generate_with_retry env (get_working_model_name env)
        (pdf_prompt (String.intercalate "\n\n" (docs.map Doc.page_content)) query)).1
      = .ok (model_used, answer))
    (hNF : strContains answer "NOT_FOUND" = true)
    (hfail : (∃ e, env.tavily query = .error e)
      ∨ ∃ w e, env.tavily query = .ok w
          ∧ env.generate model_used (web_prompt w query) = .error e) :
    (generate_answer env query history).result = .ok apology
    ∧ (generate_answer env query history).tavily_calls = 1 := by
  have hw : web_fallback env model_used query = apology := by
    rcases hfail with ⟨e, he⟩ | ⟨w, e, hw, hg⟩
    · simp [web_fallback, he]
    · simp [web_fallback, hw, hg]
  constructor
  · simp [generate_answer, hsim, hgen, hNF, hw]
  · simp [generate_answer, hsim, hgen, hNF]

/-- Claim C5 witness: a concrete run whose Tavily search raises ends with the
apology and a single search attempt. -/
theorem C5_witness :
    (generate_answer env_search_fails "q" []).result = .ok apology
    ∧ (generate_answer env_search_fails "q" []).tavily_calls = 1 :=
  C5_fallback_failure_yields_apology env_search_fails "q" [] []
    "models/gemini-pro" "NOT_FOUND" rfl rfl (by decide)
    (Or.inl ⟨"tavily 500", rfl⟩)

/-- A startup run where both keys are present and the folder holds a `.pdf`
file, but the PDF loader raises. -/
def startup_env_loader_raises : StartupEnv :=
  { google_api_key := some "g-key",
    tavily_api_key := some "t-key",
    folder_exists := true,
    files := ["guide.pdf"],
    load_pdf := fun _ => .error "corrupt PDF",
    build_index := fun ds => .ok ds }

/-- A startup run in which everything succeeds. -/
def startup_env_good : StartupEnv :=
  { google_api_key := some "g-key",
    tavily_api_key := some "t-key",
    folder_exists := true,
    files := ["guide.pdf"],
    load_pdf := fun _ => .ok [{ page_content := "page1" }],
    build_index := fun ds => .ok ds }

/-- Claim C6 counterexample: both credentials present, the folder exists and
contains a `.pdf` file, yet the chat surface is still not rendered, because
the loader raised and `get_vector_store` returned `None` — the claim's
"otherwise the chat interface is rendered" does not hold. -/
theorem C6_counterexample :
    truthy startup_env_loader_raises.google_api_key = true
    ∧ truthy startup_env_loader_raises.tavily_api_key = true
    ∧ startup_env_loader_raises.folder_exists = true
    ∧ startup_env_loader_raises.files.filter (fun f => strEndsWith f ".pdf") ≠ []
    ∧ startup startup_env_loader_raises ≠ .chat := by
  decide

/-- Claim C6 (amended): missing credentials halt startup with the keys
error; a missing folder or an absence of `.pdf` files blocks the chat with
the corresponding message; and the chat interface is rendered exactly when
both credentials are truthy, the folder exists, loading the `.pdf` files
succeeds with at least one page, and index construction succeeds — so a
loading or indexing exception also prevents the chat surface. -/
theorem C6_startup_gating (env : StartupEnv) :
    ((truthy env.google_api_key = false ∨ truthy env.tavily_api_key = false) →
      startup env = .halted "⚠️ Error: Keys not found. Please check your .env file.")
    ∧ (truthy env.google_api_key = true → truthy env.tavily_api_key = true →
        env.folder_exists = false →
        startup env
          = .noChat "Folder \x27data\x27 not found! Please create a \x27data\x27 folder.")
    ∧ (truthy env.google_api_key = true → truthy env.tavily_api_key = true →
        env.folder_exists = true →
        env.files.filter (fun f => strEndsWith f ".pdf") = [] →
        startup env = .noChat "No PDF files found in \x27data\x27 folder!")
    ∧ (startup env = .chat ↔
        truthy env.google_api_key = true ∧ truthy env.tavily_api_key = true
          ∧ env.folder_exists = true
          ∧ ∃ documents vs,
              load_all env.load_pdf
                  (env.files.filter (fun f => strEndsWith f ".pdf"))
                = .ok documents
              ∧ documents ≠ [] ∧ env.build_index documents = .ok vs) := by
  refine ⟨?_, ?_, ?_, ?_⟩
  · intro h
    rcases h with h | h <;> simp [startup, h]
  · intro hg ht hf
    simp [startup, hg, ht, get_vector_store, hf]
  · intro hg ht hf hfilter
    simp [startup, hg, ht, get_vector_store, hf, hfilter, load_all]
  · constructor
    · intro hchat
      unfold startup at hchat
      split at hchat
      · exact absurd hchat (by simp)
      · rename_i hcond
        have hg : truthy env.google_api_key = true := by
          cases hb : truthy env.google_api_key
          · simp [hb] at hcond
          · rfl
        have ht : truthy env.tavily_api_key = true := by
          cases hb : truthy env.tavily_api_key
          · simp [hb] at hcond
          · rfl
        refine ⟨hg, ht, ?_⟩
        rcases hvs : get_vector_store env with msg | vs
        · rw [hvs] at hchat
          exact absurd hchat (by simp)
        · unfold get_vector_store at hvs
          split at hvs
          · exact absurd hvs (by simp)
          · rename_i hfe0
            have hfe : env.folder_exists = true := by
              cases hb : env.folder_exists
              · simp [hb] at hfe0
              · rfl
            refine ⟨hfe, ?_⟩
            split at hvs
            · exact absurd hvs (by simp)
            · rename_i documents hload
              split at hvs
              · exact absurd hvs (by simp)
              · rename_i hne
                split at hvs
                · exact absurd hvs (by simp)
                · rename_i vs2 hbuild
                  refine ⟨documents, vs2, hload, ?_, hbuild⟩
                  intro hnil
                  subst hnil
                  exact hne rfl
    · rintro ⟨hg, ht, hfe, documents, vs, hload, hne, hbuild⟩
      cases documents with
      | nil => exact absurd rfl hne
      | cons d ds =>
        simp [startup, hg, ht, get_vector_store, hfe, hload, hbuild]

/-- Claim C6 witness: a fully successful concrete startup renders the chat,
and removing one credential halts it with the keys error. -/
theorem C6_witness :
    startup startup_env_good = .chat
    ∧ startup { startup_env_good with google_api_key := none }
        = .halted "⚠️ Error: Keys not found. Please check your .env file." := by
  have h1 := C6_startup_gating startup_env_good
  have h2 := C6_startup_gating { startup_env_good with google_api_key := none }
  constructor
  · exact (h1.2.2.2).mpr ⟨rfl, rfl, rfl, [{ page_content := "page1" }],
      [{ page_content := "page1" }], rfl, by decide, rfl⟩
  · exact h2.1 (Or.inl rfl)

/-- Claim C7 counterexample: a submission during which `generate_answer`
raises (here: the uncaught retrieval failure) grows the history by exactly
ONE message — the human turn appended at line 192 — because the script run
aborts before the ai append at line 199; so "every user submission grows the
history by exactly two Messages" is false. -/
theorem C7_counterexample :
    (handle_submission env_retrieval_raises [] "q").1
      = [{ role := "human", content := "q" }]
    ∧ (handle_submission env_retrieval_raises [] "q").1.length
        = ([] : List Message).length + 1
    ∧ (handle_submission env_retrieval_raises [] "q").1.length
        ≠ ([] : List Message).length + 2 :=
  ⟨rfl, rfl, by decide⟩

/-- Claim C7 (amended): a user submission whose pipeline call returns
normally appends exactly a human message with the user's input followed by
an ai message with the response, the prior history staying a prefix
(append-only, nothing mutated, removed or reordered) with chronological
order preserved on render; a submission during which the pipeline raises
(the uncaught retrieval failure) aborts after the human append, growing the
history by exactly one while still keeping the prior history as a prefix. -/
theorem C7_submission_growth (env : Env) (history : List Message)
    (user_input : String) :
    (∀ response_text,
      (generate_answer env user_input
          (history ++ [{ role := "human", content := user_input }])).result
        = .ok response_text →
      (handle_submission env history user_input).1
        = history ++ [{ role := "human", content := user_input },
            { role := "ai", content := response_text }]
      ∧ (handle_submission env history user_input).1.length = history.length + 2
      ∧ history <+: (handle_submission env history user_input).1
      ∧ render_history (handle_submission env history user_input).1
        = render_history history
          ++ [("human", avatar_for "human", user_input),
              ("ai", avatar_for "ai", response_text)])
    ∧ (∀ e,
      (generate_answer env user_input
          (history ++ [{ role := "human", content := user_input }])).result
        = .error e →
      (handle_submission env history user_input).1
        = history ++ [{ role := "human", content := user_input }]
      ∧ (handle_submission env history user_input).1.length = history.length + 1
      ∧ history <+: (handle_submission env history user_input).1) := by
  constructor
  · intro response_text hok
    have h1 : (handle_submission env history user_input).1
        = history ++ [{ role := "human", content := user_input },
            { role := "ai", content := response_text }] := by
      simp [handle_submission, hok]
    refine ⟨h1, ?_, ?_, ?_⟩
    · simp [h1]
    · exact ⟨_, h1.symm⟩
    · simp [h1, render_history]
  · intro e herr
    have h1 : (handle_submission env history user_input).1
        = history ++ [{ role := "human", content := user_input }] := by
      simp [handle_submission, herr]
    refine ⟨h1, ?_, ?_⟩
    · simp [h1]
    · exact ⟨_, h1.symm⟩

/-- Claim C7 witness: a concrete submission whose pipeline returns normally
yields exactly the two new turns. -/
theorem C7_growth_witness :
    (handle_submission env_sentinel [] "q").1
      = [{ role := "human", content := "q" },
         { role := "ai", content := "NOT_FOUND" }]
    ∧ (handle_submission env_sentinel [] "q").1.length = 2 := by
  have h := (C7_submission_growth env_sentinel [] "q").1 "NOT_FOUND" rfl
  exact ⟨h.1, h.2.1⟩

/-- Claim C8: under the cache-resource discipline, `n + 1` calls to
`get_vector_store` starting from an empty cache run the build exactly once
and every call observes the one cached instance. -/
theorem C8_index_built_at_most_once (env : StartupEnv) (n : Nat) :
    cached_calls (fun _ => get_vector_store env) (n + 1) none
      = (List.replicate (n + 1) (get_vector_store env), 1) := by
  simp [cached_calls, cached_calls_hit, List.replicate_succ]

/-- Claim C9: `generate_answer` retrieves with `k = 3`: its documents are
exactly the top three hits of the index search, hence at most three, the
search output is sorted by non-decreasing distance, and the concatenation of
all retrieved chunks appears verbatim inside the grounded prompt. -/
theorem C9_top3_retrieval_in_prompt (lm : Except String (List ModelInfo))
    (entries : List IndexedChunk) (embed : String → List Int)
    (gen : String → String → Except String String)
    (tav : String → Except String String) (query : String)
    (history : List Message) :
    (generate_answer (env_of_store lm entries embed gen tav) query history).docs
      = (faiss_search entries (embed query) 3).map (fun p => { page_content := p.2 })
    ∧ (generate_answer (env_of_store lm entries embed gen tav) query
        history).docs.length ≤ 3
    ∧ (faiss_search entries (embed query) 3).Pairwise (fun a b => a.1 ≤ b.1)
    ∧ ∃ l r,
        (generate_answer (env_of_store lm entries embed gen tav) query
            history).prompt.data
          = l ++ (String.intercalate "\n\n"
              ((generate_answer (env_of_store lm entries embed gen tav) query
                  history).docs.map Doc.page_content)).data ++ r := by
  have hd := generate_answer_docs_prompt (env_of_store lm entries embed gen tav)
    query history _ rfl
  refine ⟨hd.1, ?_, faiss_search_sorted entries (embed query) 3, ?_⟩
  · rw [hd.1]
    simp only [List.length_map, faiss_search, List.length_take]
    exact min_le_left _ _
  · rw [hd.2, hd.1]
    exact pdf_prompt_contains_context _ query

/-- Claim C10: `generate_answer` never reads its `chat_history` parameter —
for the same query and the same external-service behaviour, any two session
histories produce identical results. -/
theorem C10_answer_independent_of_history (env : Env) (query : String)
    (h1 h2 : List Message) :
    generate_answer env query h1 = generate_answer env query h2 := rfl
